import Mathlib

/-!
Verification of `flake8-define-class-attributes` against its specification.

The development shallowly embeds the repository's two modules:

* `flake8_define_class_attributes/ast_walker.py`: the assignment resolver
  (`resolve_attribute`, `resolve_assign`), the decorator check
  (`has_special_decorator`), and the tree walker (`FDCAVisitor`), including its
  mutable state (`_context`, `_n_contained_classdef`, `class_vars`, `init_vars`,
  `method_vars`) modelled by explicit state passing in an `Except` monad whose
  errors stand for the uncaught Python exceptions (`ValueError`, `IndexError`,
  `RuntimeError`, `UnboundLocalError`).
* `flake8_define_class_attributes/checker.py`: `CLA001` and
  `ClassAttributeChecker.run`.

Python's `ast` nodes are embedded by the constructors the walker dispatches on.
`ast.AsyncFunctionDef` is handled by the very same bound methods as
`ast.FunctionDef` (`visit_AsyncFunctionDef = switch_context`), so a single
`functionDef` constructor stands for both.  Python's unordered `set` objects are
modelled as duplicate-free lists in insertion order (`setInsert`/`setUnion`):
membership and cardinality agree with the Python sets, while iteration order is
a deterministic refinement of CPython's unspecified set order.
-/

/-- The subset of Python expression nodes the resolver dispatches on
(`ast.Name`, `ast.Attribute`, `ast.Subscript`, `ast.Starred`, `ast.Tuple`,
`ast.List`, `ast.Call`); `constant` stands for every other expression. Slice
indices, call arguments and decorator arguments play no role in the source's
logic and are not recorded. -/
inductive PyExpr where
  | name (id : String)
  | attribute (value : PyExpr) (attr : String)
  | subscript (value : PyExpr)
  | starred (value : PyExpr)
  | tuple (elts : List PyExpr)
  | listExpr (elts : List PyExpr)
  | call (func : PyExpr)
  | constant
deriving Repr

/-- Source span of a statement: `lineno`, `col_offset`, `end_lineno`,
`end_col_offset` of the Python AST node. -/
structure Loc where
  lineno : Nat
  col_offset : Nat
  end_lineno : Option Nat
  end_col_offset : Option Nat
deriving DecidableEq, Repr

/-- The subset of Python statement nodes the walker dispatches on.
`functionDef` covers `ast.FunctionDef` and `ast.AsyncFunctionDef` (both are
bound to `switch_context`); `argNames` lists the identifiers of
`node.args.args`.  `other` stands for any compound statement without a
dedicated `visit_` method (e.g. `if`/`for`/`with`), whose children are visited
by `generic_visit`; `pass` stands for any leaf statement. -/
inductive PyStmt where
  | classDef (name : String) (decorator_list : List PyExpr) (body : List PyStmt)
  | functionDef (name : String) (argNames : List String) (decorator_list : List PyExpr)
      (body : List PyStmt)
  | assign (targets : List PyExpr) (loc : Loc)
  | annAssign (target : PyExpr) (loc : Loc)
  | augAssign (target : PyExpr) (loc : Loc)
  | other (body : List PyStmt)
  | pass
deriving Repr

/-- An `ast.Module` is its list of body statements. -/
def PyModule : Type := List PyStmt

/-- `AssignSpec`: the leftmost components of an assignment target; for a
non-attribute assignment the `attr` component is the empty string. -/
structure AssignSpec where
  base : String
  attr : String
deriving DecidableEq, Repr

/-- `SelfAssignNode`: an attribute name together with the location of the
assignment statement it was extracted from. -/
structure SelfAssignNode where
  attr : String
  lineno : Nat
  col_offset : Nat
  end_lineno : Option Nat
  end_col_offset : Option Nat
deriving DecidableEq, Repr

/-- `SelfAssignNode.from_node`: build a `SelfAssignNode` from an attribute name
and the location of the assignment node (all targets of a multi-target
statement share the base node's location). -/
def SelfAssignNode.from_node (attr : String) (loc : Loc) : SelfAssignNode :=
  ⟨attr, loc.lineno, loc.col_offset, loc.end_lineno, loc.end_col_offset⟩

/-- The exceptions `resolve_attribute`/`resolve_assign` can raise:
`ResolvedCallError` (caught upstream), `ValueError` for an unexpected node
shape, and Python's `UnboundLocalError` for the degenerate call of
`resolve_attribute` on a node with no attribute step (cannot arise from
`resolve_assign`). -/
inductive ResolveErr where
  | call
  | unexpected
  | unboundLocal
deriving DecidableEq, Repr

/-- The `while isinstance(node, (ast.Attribute, ast.Subscript))` loop of
`resolve_attribute`: `attr` holds the attribute name seen on the most recent
`ast.Attribute` step (`none` while no such step has happened, in which case the
final `return` would raise `UnboundLocalError`). -/
def resolve_attr_loop : PyExpr → Option String → Except ResolveErr AssignSpec
  | PyExpr.attribute v a, _ => resolve_attr_loop v (some a)
  | PyExpr.subscript v, attr => resolve_attr_loop v attr
  | PyExpr.name id, some attr => Except.ok ⟨id, attr⟩
  | PyExpr.name _, none => Except.error ResolveErr.unboundLocal
  | PyExpr.call _, _ => Except.error ResolveErr.call
  | _, _ => Except.error ResolveErr.unexpected

/-- `resolve_attribute`: resolve the two leftmost components of an
attribute-access chain; raises `ResolvedCallError` when the chain bottoms out
in a function call, `ValueError` on any other unexpected base. -/
def resolve_attribute (base_node : PyExpr) : Except ResolveErr AssignSpec :=
  resolve_attr_loop base_node none

/-- Python `set.add`: append the element unless already present. -/
def setInsert {α : Type} [DecidableEq α] (l : List α) (x : α) : List α :=
  if x ∈ l then l else l ++ [x]

/-- Python `set.update`: insert every element of `m` into `l`. -/
def setUnion {α : Type} [DecidableEq α] (l m : List α) : List α :=
  m.foldl setInsert l

/- The target-expression cases of `resolve_assign` (`ast.Tuple`/`ast.List`
destructuring, `ast.Attribute`, `ast.Name`, `ast.Subscript`/`ast.Starred`, and
the `case _` that raises `ValueError`), together with `resolve_targets`, the
`assigned.update(...)` accumulation loop over a list of target expressions. -/
mutual
def resolve_target : PyExpr → Except ResolveErr (List AssignSpec)
  | PyExpr.tuple elts => resolve_targets [] elts
  | PyExpr.listExpr elts => resolve_targets [] elts
  | PyExpr.attribute v a =>
      match resolve_attribute (PyExpr.attribute v a) with
      | Except.ok spec => Except.ok [spec]
      | Except.error e => Except.error e
  | PyExpr.name id => Except.ok [⟨id, ""⟩]
  | PyExpr.subscript v => resolve_target v
  | PyExpr.starred v => resolve_target v
  | PyExpr.call _ => Except.error ResolveErr.unexpected
  | PyExpr.constant => Except.error ResolveErr.unexpected

def resolve_targets (acc : List AssignSpec) :
    List PyExpr → Except ResolveErr (List AssignSpec)
  | [] => Except.ok acc
  | e :: rest =>
      match resolve_target e with
      | Except.error err => Except.error err
      | Except.ok specs => resolve_targets (setUnion acc specs) rest
end

/-- `resolve_assign` on a statement node: `ast.Assign` accumulates over its
`targets`, `ast.AnnAssign` and `ast.AugAssign` resolve their single `target`;
any other statement hits the `case _` arm and raises `ValueError`. -/
def resolve_assign : PyStmt → Except ResolveErr (List AssignSpec)
  | PyStmt.assign targets _ => resolve_targets [] targets
  | PyStmt.annAssign target _ => resolve_target target
  | PyStmt.augAssign target _ => resolve_target target
  | _ => Except.error ResolveErr.unexpected

/-- `has_special_decorator`: `true` iff some decorator is a bare `ast.Name`
whose identifier is `classmethod` or `staticmethod`. -/
def has_special_decorator (decorator_list : List PyExpr) : Bool :=
  decorator_list.any fun d =>
    match d with
    | PyExpr.name id => id = "classmethod" || id = "staticmethod"
    | _ => false

/-- One entry of the visitor's `_context` stack: the `ast.ClassDef` or
function-definition node, reduced to the fields the walker reads (`name`, and
for functions the identifiers of `args.args`). -/
inductive Frame where
  | classFrame (name : String)
  | funcFrame (name : String) (argNames : List String)
deriving DecidableEq, Repr

/-- Whether a context frame is an `ast.ClassDef`. -/
def Frame.isClass : Frame → Bool
  | Frame.classFrame _ => true
  | Frame.funcFrame _ _ => false

/-- The mutable state of `FDCAVisitor`: `context` is `_context` with the head
of the list as the top of the Python stack (`_context[-1]`), plus the
`_n_contained_classdef` counter and the three result buckets. -/
structure WalkState where
  context : List Frame
  nClassdef : Nat
  class_vars : List String
  init_vars : List String
  method_vars : List SelfAssignNode
deriving DecidableEq, Repr

/-- `FDCAVisitor.__init__`: empty context, zero counter, empty buckets. -/
def initState : WalkState := ⟨[], 0, [], [], []⟩

/-- The uncaught Python exceptions a walk can raise. -/
inductive WalkError where
  | valueError
  | unboundLocal
  | indexError
  | runtimeError
  | attributeError
deriving DecidableEq, Repr

/-- `FDCAVisitor._n_function_levels`: depth of the current context from the
most recent `ast.ClassDef`; `none` models the `RuntimeError` raised when no
`ClassDef` is in context.  (Our `context` list is already top-first, matching
the `reversed(self._context)` iteration.) -/
def n_function_levels : List Frame → Option Nat
  | [] => none
  | Frame.classFrame _ :: _ => some 0
  | Frame.funcFrame _ _ :: rest => (n_function_levels rest).map (· + 1)

/-- `resolve_instance_name`: `node.args.args[0].arg`; `none` models the
`IndexError` raised when the function declares no positional parameters. -/
def resolve_instance_name (argNames : List String) : Option String :=
  argNames.head?

/-- `stmtLoc`: the `lineno`/`col_offset`/... fields of a statement node, as
read by `SelfAssignNode.from_node`.  Only assignment statements' locations are
ever read by the source, so the other constructors carry a dummy location. -/
def stmtLoc : PyStmt → Loc
  | PyStmt.assign _ loc => loc
  | PyStmt.annAssign _ loc => loc
  | PyStmt.augAssign _ loc => loc
  | _ => ⟨0, 0, none, none⟩

/-- `FDCAVisitor.visit_assign` (bound to `visit_Assign`, `visit_AnnAssign` and
`visit_AugAssign`): skip when no `ClassDef` is in context; resolve the
statement, returning unchanged on `ResolvedCallError` and propagating any other
exception; file the resolved specs into `class_vars` (innermost frame a class),
or filter them by the enclosing method's instance-variable name and file into
`init_vars` or `method_vars`. -/
def visit_assign (st : WalkState) (node : PyStmt) : Except WalkError WalkState :=
  if st.nClassdef = 0 then Except.ok st
  else
    match resolve_assign node with
    | Except.error ResolveErr.call => Except.ok st
    | Except.error ResolveErr.unexpected => Except.error WalkError.valueError
    | Except.error ResolveErr.unboundLocal => Except.error WalkError.unboundLocal
    | Except.ok new_nodes =>
      match st.context with
      | [] => Except.error WalkError.indexError
      | Frame.classFrame _ :: _ =>
          Except.ok { st with class_vars := setUnion st.class_vars (new_nodes.map (·.base)) }
      | Frame.funcFrame _ _ :: _ =>
        match n_function_levels st.context with
        | none => Except.error WalkError.runtimeError
        | some n =>
          -- `self._context[-n]` is element `n - 1` of our top-first list.
          match st.context[n - 1]? with
          | none => Except.error WalkError.indexError
          | some (Frame.classFrame _) =>
              -- `resolve_instance_name` on a ClassDef node: no `args` field.
              Except.error WalkError.attributeError
          | some (Frame.funcFrame method_name argNames) =>
            match resolve_instance_name argNames with
            | none => Except.error WalkError.indexError
            | some instance_varname =>
              let self_nodes := new_nodes.filter (fun s => s.base == instance_varname)
              if method_name = "__init__" ∨ method_name = "__post_init__" then
                Except.ok { st with
                  init_vars := setUnion st.init_vars (self_nodes.map (·.attr)) }
              else
                Except.ok { st with
                  method_vars := st.method_vars ++
                    self_nodes.map (fun s => SelfAssignNode.from_node s.attr (stmtLoc node)) }

/- `FDCAVisitor.switch_context` and the visit dispatch (`visit_ClassDef`,
`visit_FunctionDef`/`visit_AsyncFunctionDef`, the three assignment hooks, and
`generic_visit` for other statements), as one step function together with the
left-to-right visit of a statement list.  A class definition increments the
counter before pushing; a function definition inside a class carrying a special
decorator is pruned with its whole subtree; popping decrements the counter when
the popped frame is a class. -/
mutual
def visitStmt (st : WalkState) : PyStmt → Except WalkError WalkState
  | PyStmt.classDef name _decorators body =>
      let st1 : WalkState := { st with
        nClassdef := st.nClassdef + 1,
        context := Frame.classFrame name :: st.context }
      match visitStmts st1 body with
      | Except.error e => Except.error e
      | Except.ok st2 =>
        match st2.context with
        | [] => Except.error WalkError.indexError
        | popped :: rest =>
            Except.ok { st2 with
              context := rest,
              nClassdef := if popped.isClass then st2.nClassdef - 1 else st2.nClassdef }
  | PyStmt.functionDef name argNames decorators body =>
      if 0 < st.nClassdef ∧ has_special_decorator decorators then Except.ok st
      else
        let st1 : WalkState := { st with
          context := Frame.funcFrame name argNames :: st.context }
        match visitStmts st1 body with
        | Except.error e => Except.error e
        | Except.ok st2 =>
          match st2.context with
          | [] => Except.error WalkError.indexError
          | popped :: rest =>
              Except.ok { st2 with
                context := rest,
                nClassdef := if popped.isClass then st2.nClassdef - 1 else st2.nClassdef }
  | PyStmt.assign targets loc => visit_assign st (PyStmt.assign targets loc)
  | PyStmt.annAssign target loc => visit_assign st (PyStmt.annAssign target loc)
  | PyStmt.augAssign target loc => visit_assign st (PyStmt.augAssign target loc)
  | PyStmt.other body => visitStmts st body
  | PyStmt.pass => Except.ok st

def visitStmts (st : WalkState) : List PyStmt → Except WalkError WalkState
  | [] => Except.ok st
  | s :: rest =>
      match visitStmt st s with
      | Except.error e => Except.error e
      | Except.ok st1 => visitStmts st1 rest
end

/-- `FDCAVisitor().visit(tree)`: walk a module's body from the fresh state. -/
def walk (tree : PyModule) : Except WalkError WalkState :=
  visitStmts initState tree

/-- The origin tag of a formatted error: `checker.py` passes the
`ClassAttributeChecker` class object itself as the fourth tuple element. -/
inductive OriginTag where
  | classAttributeChecker
deriving DecidableEq, Repr

/-- A flake8 `FORMATTED_ERROR`: `(line number, column number, message, checker
type)`, the tuple built by `CLA001.to_flake8`. -/
structure Finding where
  lineno : Nat
  col_offset : Nat
  msg : String
  origin : OriginTag
deriving DecidableEq, Repr

/-- Errors of the reconciliation pass: an exception of the walk itself, or the
`AttributeError` raised by `checker.py`'s accesses to members that the walker's
`SelfAssignNode` does not define. -/
inductive RunError where
  | walk (e : WalkError)
  | attributeError
deriving DecidableEq, Repr

/-- `CLA001.__init__` as written in `checker.py`: it reads `node.spec.attr`,
but the `SelfAssignNode` entries produced by `ast_walker.py` carry the
attribute name directly in `attr` and have no `spec` field, so constructing
the error from a walker entry raises `AttributeError`. -/
def CLA001_literal (_node : SelfAssignNode) : Except RunError Finding :=
  Except.error RunError.attributeError

/-- Modelled from the spec: the Finding of §6 — `checker.py` as it stands reads
`node.spec.attr`, a field the walker's `SelfAssignNode` does not have; the
spec's message format (and the repository's own `test_err_to_flake8`) fix the
intended 4-tuple, with the attribute name read from the walker entry itself. -/
def cla001 (node : SelfAssignNode) : Finding :=
  ⟨node.lineno, node.col_offset,
   "CLA001 Attribute '" ++ node.attr ++ "' not defined prior to assignment",
   OriginTag.classAttributeChecker⟩

/-- Python's `a in visitor.init_vars` as written in `ClassAttributeChecker.run`:
`a` is a `SelfAssignNode` (a 5-tuple) while `init_vars` holds strings, and in
Python a tuple never compares equal to a string, so the test is always false. -/
def selfAssignNode_in_strs (_a : SelfAssignNode) (_l : List String) : Bool :=
  false

/- The report loop of `ClassAttributeChecker.run` as written: for each entry
of `method_vars`, skip when `a in visitor.init_vars` (always false, see
`selfAssignNode_in_strs`); otherwise evaluate `a.as_fake_class_var()` — a
method `SelfAssignNode` does not define — which raises `AttributeError` before
the `class_vars` comparison or the `CLA001` construction is reached. -/
def run_literal_loop (init_vars _class_vars : List String) :
    List SelfAssignNode → Except RunError (List Finding)
  | [] => Except.ok []
  | a :: rest =>
      if selfAssignNode_in_strs a init_vars then run_literal_loop init_vars _class_vars rest
      else Except.error RunError.attributeError

/-- `ClassAttributeChecker.run` as written in `checker.py`: a `None` tree
yields nothing; otherwise walk the tree and iterate `method_vars` through the
report loop. -/
def run_literal : Option PyModule → Except RunError (List Finding)
  | none => Except.ok []
  | some tree =>
      match walk tree with
      | Except.error e => Except.error (RunError.walk e)
      | Except.ok visitor =>
          run_literal_loop visitor.init_vars visitor.class_vars visitor.method_vars

/-- Modelled from the spec: the Reconciler of §4.3 — for each `LocatedAttribute`
of `method_attributes` in traversal order, emit a Finding unless the attribute
name is present in `constructor_attributes` or in `class_level_attributes`.
(The `checker.py` in the repository references an `AssignNode` interface that
`ast_walker.py` does not provide; the spec's words and the repository's
end-to-end tests define this pass over the walker's actual buckets.) -/
def reconcile (visitor : WalkState) : List Finding :=
  visitor.method_vars.filterMap fun a =>
    if a.attr ∈ visitor.init_vars ∨ a.attr ∈ visitor.class_vars then none
    else some (cla001 a)

/-- Modelled from the spec: the checker's run pass over an optional tree —
`None` means "nothing to check" and yields zero findings. -/
def run_spec : Option PyModule → Except WalkError (List Finding)
  | none => Except.ok []
  | some tree => (walk tree).map reconcile

/-! ### Concrete example modules

Each is the Python AST (as parsed by `ast.parse`) of a small source file used
by the claims; line/column numbers are those CPython reports. -/

/-- `class Foo:` / `    def __init__(self):` / `        self.a = 1` /
`    def beans(self):` / `        self.a = 5` -/
def modInitBeans : PyModule :=
  [PyStmt.classDef "Foo" [] [
    PyStmt.functionDef "__init__" ["self"] []
      [PyStmt.assign [PyExpr.attribute (PyExpr.name "self") "a"] ⟨3, 8, none, none⟩],
    PyStmt.functionDef "beans" ["self"] []
      [PyStmt.assign [PyExpr.attribute (PyExpr.name "self") "a"] ⟨5, 8, none, none⟩]]]

/-- `class Foo:` / `    def beans(self):` / `        self.foo().bar = self.x = 5`
— a multi-target assignment whose first target's base is a function call and
whose second target is a valid receiver attribute. -/
def modCallTarget : PyModule :=
  [PyStmt.classDef "Foo" [] [
    PyStmt.functionDef "beans" ["self"] []
      [PyStmt.assign
        [PyExpr.attribute (PyExpr.call (PyExpr.attribute (PyExpr.name "self") "foo")) "bar",
         PyExpr.attribute (PyExpr.name "self") "x"] ⟨3, 8, none, none⟩]]]

/-- The statement `self.foo().bar = self.x = 5` on its own. -/
def stmtCallTarget : PyStmt :=
  PyStmt.assign
    [PyExpr.attribute (PyExpr.call (PyExpr.attribute (PyExpr.name "self") "foo")) "bar",
     PyExpr.attribute (PyExpr.name "self") "x"] ⟨3, 8, none, none⟩

/-- `class Foo:` / `    @classmethod` / `    def beans(self):` /
`        self.a = 5` -/
def modClassmethod : PyModule :=
  [PyStmt.classDef "Foo" [] [
    PyStmt.functionDef "beans" ["self"] [PyExpr.name "classmethod"]
      [PyStmt.assign [PyExpr.attribute (PyExpr.name "self") "a"] ⟨4, 8, none, none⟩]]]

/-- `class Foo:` / `    @property` / `    def beans(self):` /
`        self.a = 5` -/
def modProperty : PyModule :=
  [PyStmt.classDef "Foo" [] [
    PyStmt.functionDef "beans" ["self"] [PyExpr.name "property"]
      [PyStmt.assign [PyExpr.attribute (PyExpr.name "self") "a"] ⟨4, 8, none, none⟩]]]

/-- `class Foo:` / `    def beans(self):` / `        def deep_beans():` /
`            self.a = 1` — a nested function assigning through the outer
method's receiver name. -/
def modNested : PyModule :=
  [PyStmt.classDef "Foo" [] [
    PyStmt.functionDef "beans" ["self"] [] [
      PyStmt.functionDef "deep_beans" [] []
        [PyStmt.assign [PyExpr.attribute (PyExpr.name "self") "a"] ⟨4, 12, none, none⟩]]]]

/-- `class Foo:` / `    def __init__(self):` / `        def deep():` /
`            self.a = 1` — the nested-function case with a constructor as the
outer method. -/
def modNestedInit : PyModule :=
  [PyStmt.classDef "Foo" [] [
    PyStmt.functionDef "__init__" ["self"] [] [
      PyStmt.functionDef "deep" [] []
        [PyStmt.assign [PyExpr.attribute (PyExpr.name "self") "a"] ⟨4, 12, none, none⟩]]]]

/-- `class Foo:` / `    def beans(self):` / `        self.a += 5` -/
def modAug : PyModule :=
  [PyStmt.classDef "Foo" [] [
    PyStmt.functionDef "beans" ["self"] []
      [PyStmt.augAssign (PyExpr.attribute (PyExpr.name "self") "a") ⟨3, 8, none, none⟩]]]

/-- `class Foo:` / `    def beans():` / `        self.foo().bar = 5` — a
zero-parameter method whose only assignment is dropped by the call-based
exclusion before the receiver name is ever resolved. -/
def modZeroArgCall : PyModule :=
  [PyStmt.classDef "Foo" [] [
    PyStmt.functionDef "beans" [] []
      [PyStmt.assign
        [PyExpr.attribute (PyExpr.call (PyExpr.attribute (PyExpr.name "self") "foo")) "bar"]
        ⟨3, 8, none, none⟩]]]

/-- `class Foo:` / `    def beans():` / `        x = 1` — a zero-parameter
method assigning to a plain local name. -/
def modZeroArgLocal : PyModule :=
  [PyStmt.classDef "Foo" [] [
    PyStmt.functionDef "beans" [] []
      [PyStmt.assign [PyExpr.name "x"] ⟨3, 8, none, none⟩]]]

/-- `class Foo:` / `    def beans(self):` / `        self.a = self.a.b = 1` —
two targets of one statement resolving to the same descriptor `(self, a)`. -/
def modSameSpecOneStmt : PyModule :=
  [PyStmt.classDef "Foo" [] [
    PyStmt.functionDef "beans" ["self"] []
      [PyStmt.assign
        [PyExpr.attribute (PyExpr.name "self") "a",
         PyExpr.attribute (PyExpr.attribute (PyExpr.name "self") "a") "b"]
        ⟨3, 8, none, none⟩]]]

/-- `class Foo:` / `    def beans(self):` / `        self.a = 1` /
`        self.a = 2` — the same assignment in two separate statements. -/
def modSameSpecTwoStmts : PyModule :=
  [PyStmt.classDef "Foo" [] [
    PyStmt.functionDef "beans" ["self"] []
      [PyStmt.assign [PyExpr.attribute (PyExpr.name "self") "a"] ⟨3, 8, none, none⟩,
       PyStmt.assign [PyExpr.attribute (PyExpr.name "self") "a"] ⟨4, 8, none, none⟩]]]

/-- `class Foo:` / `    def beans(self):` / `        self.a = 5` — one
undeclared attribute assignment in an ordinary method. -/
def modBeansOnly : PyModule :=
  [PyStmt.classDef "Foo" [] [
    PyStmt.functionDef "beans" ["self"] []
      [PyStmt.assign [PyExpr.attribute (PyExpr.name "self") "a"] ⟨3, 8, none, none⟩]]]

/-- One outward step of an attribute-access chain: a further `.s` attribute
access or a `[...]` subscript. -/
inductive ChainStep where
  | attrStep (s : String)
  | subStep

/-- The target expressions quantified over by claim C3: `buildChain base a
steps` is the chain whose innermost access is the attribute `a` on the plain
name `base`, wrapped outward by the given attribute/subscript steps. -/
def buildChain (base a : String) : List ChainStep → PyExpr
  | [] => PyExpr.attribute (PyExpr.name base) a
  | ChainStep.attrStep s :: rest => PyExpr.attribute (buildChain base a rest) s
  | ChainStep.subStep :: rest => PyExpr.subscript (buildChain base a rest)

/-! ### Supporting lemmas -/

/-- Inserting into a duplicate-free list keeps it duplicate-free. -/
theorem setInsert_nodup {α : Type} [DecidableEq α] {l : List α} (h : l.Nodup) (x : α) :
    (setInsert l x).Nodup := by
  by_cases hx : x ∈ l
  · simpa [setInsert, hx] using h
  · simp [setInsert, hx, List.nodup_append, List.disjoint_singleton, h]

/-- Unioning anything into a duplicate-free list keeps it duplicate-free. -/
theorem setUnion_nodup {α : Type} [DecidableEq α] :
    ∀ (m : List α) {l : List α}, l.Nodup → (setUnion l m).Nodup
  | [], _, h => h
  | x :: m, l, h => by
      simpa [setUnion, List.foldl_cons] using
        setUnion_nodup m (setInsert_nodup h x)

/-- The accumulation loop of `resolve_assign` preserves freedom from
duplicates: a successful resolution starting from a duplicate-free accumulator
yields a duplicate-free list of descriptors. -/
theorem resolve_targets_nodup :
    ∀ (es : List PyExpr) (acc : List AssignSpec), acc.Nodup →
      ∀ specs, resolve_targets acc es = Except.ok specs → specs.Nodup := by
  intro es
  induction es with
  | nil =>
      intro acc h specs heq
      simp only [resolve_targets] at heq
      cases heq
      exact h
  | cons e rest ih =>
      intro acc h specs heq
      simp only [resolve_targets] at heq
      cases hr : resolve_target e with
      | error err => rw [hr] at heq; cases heq
      | ok s =>
          rw [hr] at heq
          exact ih (setUnion acc s) (setUnion_nodup s h) specs heq

/-- The loop of `resolve_attribute` ignores the attribute carried so far once
it reaches the innermost attribute step of a chain built by `buildChain`. -/
theorem resolve_attr_loop_buildChain (base a : String) :
    ∀ (steps : List ChainStep) (c : Option String),
      resolve_attr_loop (buildChain base a steps) c = Except.ok ⟨base, a⟩
  | [], _ => rfl
  | ChainStep.attrStep s :: rest, _ => by
      simp only [buildChain, resolve_attr_loop]
      exact resolve_attr_loop_buildChain base a rest (some s)
  | ChainStep.subStep :: rest, c => by
      simp only [buildChain, resolve_attr_loop]
      exact resolve_attr_loop_buildChain base a rest c

/-- `_n_function_levels` on a context whose frames down to the first class
frame are all function frames counts exactly those function frames. -/
theorem n_function_levels_of_funcs :
    ∀ (l : List Frame), (∀ f ∈ l, f.isClass = false) →
      ∀ (c : String) (rest : List Frame),
        n_function_levels (l ++ Frame.classFrame c :: rest) = some l.length := by
  intro l
  induction l with
  | nil => intro _ c rest; rfl
  | cons f l ih =>
      intro h c rest
      cases f with
      | classFrame n =>
          exact absurd (h _ (List.mem_cons_self _ _)) (by simp [Frame.isClass])
      | funcFrame n a =>
          simp only [List.cons_append, n_function_levels, List.append_eq]
          rw [ih (fun g hg => h g (List.mem_cons_of_mem _ hg)) c rest]
          simp

/-! ### Claims -/

/-- **C1.** The repository's own end-to-end tests and the spec's Reconciler
say `class Foo` with `__init__` assigning `self.a` and `beans` assigning
`self.a` yields zero findings, attribute names being suppressed against
`init_vars`/`class_vars`.  The `run` pass as written instead compares each
`SelfAssignNode` against the strings of `init_vars` (never equal) and then
calls the nonexistent `as_fake_class_var` method, raising `AttributeError` on
the first `method_vars` entry; the spec-modelled reconciliation on the same
walk yields the claimed zero findings. -/
theorem C1_run_crashes_where_spec_suppresses :
    run_literal (some modInitBeans) = Except.error RunError.attributeError ∧
    run_spec (some modInitBeans) = Except.ok [] ∧
    run_spec (some modBeansOnly) = Except.ok [cla001 ⟨"a", 3, 8, none, none⟩] :=
  ⟨rfl, rfl, rfl⟩

/-- **C3.** For every attribute-access target whose innermost access is the
attribute `a` on a base name, wrapped by any depth of further attribute and
subscript accesses, `resolve_attribute` yields the descriptor of the base name
and the attribute adjacent to it, independent of chain depth. -/
theorem C3_resolve_attribute_depth_invariant (base a : String) (steps : List ChainStep) :
    resolve_attribute (buildChain base a steps) = Except.ok ⟨base, a⟩ :=
  resolve_attr_loop_buildChain base a steps none

/-- **C6.** The intended finding for a walker entry is the 4-tuple
`(line, column, "CLA001 Attribute '<name>' not defined prior to assignment",
ClassAttributeChecker)`, and every finding of the spec-modelled reconciliation
is of exactly that shape for some `method_vars` entry; but `CLA001` as written
reads `node.spec.attr`, which a `SelfAssignNode` does not have, so constructing
it from a walker entry raises `AttributeError` instead of succeeding. -/
theorem C6_finding_shape :
    CLA001_literal ⟨"a", 0, 1, none, none⟩ = Except.error RunError.attributeError ∧
    cla001 ⟨"a", 0, 1, none, none⟩ =
      ⟨0, 1, "CLA001 Attribute 'a' not defined prior to assignment",
        OriginTag.classAttributeChecker⟩ ∧
    (∀ (visitor : WalkState) (f : Finding), f ∈ reconcile visitor →
      ∃ a, a ∈ visitor.method_vars ∧ f = cla001 a ∧
        f.msg = "CLA001 Attribute '" ++ a.attr ++ "' not defined prior to assignment" ∧
        f.origin = OriginTag.classAttributeChecker) := by
  refine ⟨rfl, rfl, ?_⟩
  intro visitor f hf
  rcases List.mem_filterMap.mp hf with ⟨a, ha, heq⟩
  by_cases h : a.attr ∈ visitor.init_vars ∨ a.attr ∈ visitor.class_vars
  · simp [h] at heq
  · simp only [h, if_false] at heq
    cases heq
    exact ⟨a, ha, rfl, rfl, rfl⟩

/-- **C7.** A checker constructed with a null/absent syntax tree yields zero
findings and raises no error: the `run` pass returns immediately on a `None`
tree, both as literally written and as the spec models it. -/
theorem C7_none_tree_zero_findings :
    run_literal none = Except.ok [] ∧ run_spec none = Except.ok [] :=
  ⟨rfl, rfl⟩

/-- **C2 counterexample.** In the multi-target statement
`self.foo().bar = self.x = 5` the call-based first target does not merely drop
itself: `resolve_assign` raises `ResolvedCallError` for the whole statement, so
no descriptor is produced for the valid target `self.x` either, and walking a
method containing the statement records nothing in any bucket. -/
theorem C2_counterexample_whole_statement_dropped :
    resolve_assign stmtCallTarget = Except.error ResolveErr.call ∧
    walk modCallTarget = Except.ok initState :=
  ⟨rfl, rfl⟩

/-- **C2 (amended).** When any target of an assignment statement resolves to a
call-based base, `ResolvedCallError` propagates out of `resolve_assign` for the
whole statement, and `visit_assign` catches it and drops the entire statement:
the walker state is unchanged, so no target of that statement — the valid ones
included — is classified into any bucket. -/
theorem C2_call_target_statement_skipped :
    (∀ (st : WalkState) (node : PyStmt),
        resolve_assign node = Except.error ResolveErr.call →
        visit_assign st node = Except.ok st) ∧
    resolve_assign stmtCallTarget = Except.error ResolveErr.call := by
  refine ⟨?_, rfl⟩
  intro st node h
  unfold visit_assign
  split
  · rfl
  · rw [h]

/-- **C2 witness.** The skip applied to a concrete in-method state and the
concrete statement `self.foo().bar = self.x = 5`. -/
theorem C2_call_target_statement_skipped_witness :
    visit_assign ⟨[Frame.funcFrame "beans" ["self"], Frame.classFrame "Foo"], 1, [], [], []⟩
      stmtCallTarget =
    Except.ok ⟨[Frame.funcFrame "beans" ["self"], Frame.classFrame "Foo"], 1, [], [], []⟩ :=
  C2_call_target_statement_skipped.1
    ⟨[Frame.funcFrame "beans" ["self"], Frame.classFrame "Foo"], 1, [], [], []⟩
    stmtCallTarget rfl

/-- **C5.** A bare `@classmethod` or `@staticmethod` decorator name makes
`has_special_decorator` true, while `@property`, a called decorator and a
dotted decorator do not; inside a class, a function definition with a special
decorator is pruned with its entire subtree (the walker state is returned
untouched), and one without is walked exactly as if it had no decorators at
all.  Concretely, the `@classmethod` variant of `class Foo` contributes nothing
to any bucket even though its body assigns `self.a`, while the `@property`
variant records the method-bucket entry. -/
theorem C5_special_decorator_pruning :
    has_special_decorator [PyExpr.name "classmethod"] = true ∧
    has_special_decorator [PyExpr.name "staticmethod"] = true ∧
    has_special_decorator [PyExpr.name "property"] = false ∧
    has_special_decorator [PyExpr.call (PyExpr.name "lru_cache")] = false ∧
    has_special_decorator [PyExpr.attribute (PyExpr.name "functools") "lru_cache"] = false ∧
    (∀ (st : WalkState) (n : String) (args : List String) (decs : List PyExpr)
        (body : List PyStmt), 0 < st.nClassdef → has_special_decorator decs = true →
        visitStmt st (PyStmt.functionDef n args decs body) = Except.ok st) ∧
    (∀ (st : WalkState) (n : String) (args : List String) (decs : List PyExpr)
        (body : List PyStmt), has_special_decorator decs = false →
        visitStmt st (PyStmt.functionDef n args decs body) =
          visitStmt st (PyStmt.functionDef n args [] body)) ∧
    walk modClassmethod = Except.ok initState ∧
    walk modProperty = Except.ok ⟨[], 0, [], [], [⟨"a", 4, 8, none, none⟩]⟩ := by
  refine ⟨rfl, rfl, rfl, rfl, rfl, ?_, ?_, rfl, rfl⟩
  · intro st n args decs body h1 h2
    simp only [visitStmt]
    rw [if_pos ⟨h1, h2⟩]
  · intro st n args decs body h
    simp only [visitStmt]
    rw [if_neg (fun hc => by rw [h] at hc; exact Bool.false_ne_true hc.2),
        if_neg (fun hc => Bool.false_ne_true hc.2)]

/-- **C5 witness.** The pruning applied to a concrete state and the concrete
`@classmethod`-decorated method whose body assigns `self.a = 5`. -/
theorem C5_special_decorator_pruning_witness :
    visitStmt ⟨[Frame.classFrame "Foo"], 1, [], [], []⟩
      (PyStmt.functionDef "beans" ["self"] [PyExpr.name "classmethod"]
        [PyStmt.assign [PyExpr.attribute (PyExpr.name "self") "a"] ⟨4, 8, none, none⟩]) =
    Except.ok ⟨[Frame.classFrame "Foo"], 1, [], [], []⟩ :=
  C5_special_decorator_pruning.2.2.2.2.2.1
    ⟨[Frame.classFrame "Foo"], 1, [], [], []⟩ "beans" ["self"] [PyExpr.name "classmethod"]
    [PyStmt.assign [PyExpr.attribute (PyExpr.name "self") "a"] ⟨4, 8, none, none⟩]
    (by decide) rfl

/-- **C8 counterexample.** `self.a += 5` inside an ordinary method is not
excluded: walking `class Foo` whose `beans` body is exactly that augmented
assignment records `("a", line 3, col 8)` in `method_vars`, and the
spec-modelled reconciliation then emits a finding for it. -/
theorem C8_counterexample_aug_assign_tracked :
    walk modAug = Except.ok ⟨[], 0, [], [], [⟨"a", 3, 8, none, none⟩]⟩ ∧
    run_spec (some modAug) = Except.ok [cla001 ⟨"a", 3, 8, none, none⟩] :=
  ⟨rfl, rfl⟩

/-- **C8 (amended).** Augmented assignment statements are handled, not
excluded: `visit_AugAssign` is bound to `visit_assign`, and an augmented
assignment is processed exactly like an annotated assignment with the same
target (`resolve_assign` resolves the single target in both cases), so
`self.a += 5` resolves to the descriptor `(self, a)` and, inside an ordinary
method, contributes a `method_vars` entry. -/
theorem C8_aug_assign_handled_like_assign :
    (∀ (st : WalkState) (target : PyExpr) (loc : Loc),
        visitStmt st (PyStmt.augAssign target loc) =
          visitStmt st (PyStmt.annAssign target loc)) ∧
    resolve_assign (PyStmt.augAssign (PyExpr.attribute (PyExpr.name "self") "a")
        ⟨3, 8, none, none⟩) = Except.ok [⟨"self", "a"⟩] ∧
    walk modAug = Except.ok ⟨[], 0, [], [], [⟨"a", 3, 8, none, none⟩]⟩ :=
  ⟨fun _ _ _ => rfl, rfl, rfl⟩

/-- **C4.** An assignment through the receiver name inside a function nested
(at any depth) within a method body is attributed to the frame directly below
the nearest class frame — the outer method: into `init_vars` when that method
is named `__init__`/`__post_init__`, otherwise appended to `method_vars` with
the statement's location.  Here `ginner :: inner` are the nested non-class
frames above the outer method's frame on the context stack. -/
theorem C4_nested_function_attribution
    (ginner : Frame) (inner : List Frame) (mname cname rcv attrName : String)
    (args : List String) (rest : List Frame) (ncd : Nat)
    (cv iv : List String) (mv : List SelfAssignNode) (loc : Loc)
    (hg : ginner.isClass = false)
    (hinner : ∀ f ∈ inner, f.isClass = false)
    (hncd : 0 < ncd) :
    visit_assign
      ⟨ginner :: (inner ++ Frame.funcFrame mname (rcv :: args) ::
          Frame.classFrame cname :: rest), ncd, cv, iv, mv⟩
      (PyStmt.assign [PyExpr.attribute (PyExpr.name rcv) attrName] loc) =
    Except.ok
      (if mname = "__init__" ∨ mname = "__post_init__" then
        ⟨ginner :: (inner ++ Frame.funcFrame mname (rcv :: args) ::
            Frame.classFrame cname :: rest), ncd, cv, setUnion iv [attrName], mv⟩
      else
        ⟨ginner :: (inner ++ Frame.funcFrame mname (rcv :: args) ::
            Frame.classFrame cname :: rest), ncd, cv, iv,
          mv ++ [SelfAssignNode.from_node attrName loc]⟩) := by
  cases ginner with
  | classFrame n => simp [Frame.isClass] at hg
  | funcFrame gn ga =>
    have hres : resolve_assign
        (PyStmt.assign [PyExpr.attribute (PyExpr.name rcv) attrName] loc) =
        Except.ok [⟨rcv, attrName⟩] := rfl
    have hfr : ∀ f ∈ (Frame.funcFrame gn ga :: inner) ++
        [Frame.funcFrame mname (rcv :: args)], f.isClass = false := by
      intro f hf
      rcases List.mem_append.mp hf with hf | hf
      · rcases List.mem_cons.mp hf with rfl | hf
        · rfl
        · exact hinner f hf
      · rw [List.mem_singleton.mp hf]; rfl
    have hlev := n_function_levels_of_funcs _ hfr cname rest
    simp only [List.append_assoc, List.cons_append, List.singleton_append,
      List.nil_append, List.length_append, List.length_cons, List.length_nil,
      Nat.zero_add, Nat.add_zero] at hlev
    have hidx : (Frame.funcFrame gn ga :: (inner ++ Frame.funcFrame mname (rcv :: args) ::
        Frame.classFrame cname :: rest))[inner.length + 1]? =
        some (Frame.funcFrame mname (rcv :: args)) := by
      have hsplit : Frame.funcFrame gn ga :: (inner ++ Frame.funcFrame mname (rcv :: args) ::
          Frame.classFrame cname :: rest) =
          (Frame.funcFrame gn ga :: inner) ++ (Frame.funcFrame mname (rcv :: args) ::
            Frame.classFrame cname :: rest) := by simp
      rw [hsplit, List.getElem?_append_right (by simp)]
      simp
    dsimp only [visit_assign]
    rw [if_neg (by omega : ¬ (ncd = 0)), hres]
    dsimp only
    rw [hlev]
    dsimp only
    rw [Nat.add_sub_cancel, hidx]
    dsimp only [resolve_instance_name, List.head?]
    by_cases hm : mname = "__init__" ∨ mname = "__post_init__"
    · rw [if_pos hm, if_pos hm]
      simp [beq_self_eq_true]
    · rw [if_neg hm, if_neg hm]
      simp [beq_self_eq_true, SelfAssignNode.from_node, stmtLoc]

/-- **C4 witness.** The attribution applied to the concrete context of
`class Foo` / `def beans(self)` / nested `def deep_beans()` assigning
`self.a = 1` at line 4, column 12: the entry lands in `method_vars` of the
outer method `beans`. -/
theorem C4_nested_function_attribution_witness :
    visit_assign
      ⟨[Frame.funcFrame "deep_beans" [], Frame.funcFrame "beans" ["self"],
        Frame.classFrame "Foo"], 1, [], [], []⟩
      (PyStmt.assign [PyExpr.attribute (PyExpr.name "self") "a"] ⟨4, 12, none, none⟩) =
    Except.ok
      ⟨[Frame.funcFrame "deep_beans" [], Frame.funcFrame "beans" ["self"],
        Frame.classFrame "Foo"], 1, [], [],
        [SelfAssignNode.from_node "a" ⟨4, 12, none, none⟩]⟩ := by
  have h := C4_nested_function_attribution (Frame.funcFrame "deep_beans" []) []
    "beans" "Foo" "self" "a" [] [] 1 [] [] [] ⟨4, 12, none, none⟩ rfl
    (by intro f hf; cases hf) (by decide)
  simpa using h

/-- **C9 counterexample.** A zero-parameter method containing an assignment
statement does not always abort the walk: when the only assignment's target is
call-based (`self.foo().bar = 5`), `visit_assign` drops the statement before
the receiver name is resolved, and the walk completes without `IndexError`. -/
theorem C9_counterexample_call_target_no_index_error :
    walk modZeroArgCall = Except.ok initState :=
  rfl

/-- **C9 (amended).** Inside a class, an assignment statement in the body of a
zero-parameter method whose targets resolve successfully (in particular an
assignment to a plain local name — anything not dropped by the call-based
exclusion) makes `resolve_instance_name` index an empty parameter list: the
walk raises an uncaught `IndexError`, aborting the traversal, as the concrete
walk of `class Foo` / `def beans(): x = 1` shows. -/
theorem C9_zero_param_method_index_error :
    (∀ (st : WalkState) (mname cname : String) (rest : List Frame) (node : PyStmt)
        (specs : List AssignSpec),
        st.context = Frame.funcFrame mname [] :: Frame.classFrame cname :: rest →
        0 < st.nClassdef →
        resolve_assign node = Except.ok specs →
        visit_assign st node = Except.error WalkError.indexError) ∧
    walk modZeroArgLocal = Except.error WalkError.indexError := by
  refine ⟨?_, rfl⟩
  intro st mname cname rest node specs hctx hncd hres
  dsimp only [visit_assign]
  rw [if_neg (by omega : ¬ (st.nClassdef = 0)), hres, hctx]
  rfl

/-- **C9 witness.** The `IndexError` applied to the concrete state of a
zero-parameter `beans` method and the plain-name assignment `x = 1`. -/
theorem C9_zero_param_method_index_error_witness :
    visit_assign ⟨[Frame.funcFrame "beans" [], Frame.classFrame "Foo"], 1, [], [], []⟩
      (PyStmt.assign [PyExpr.name "x"] ⟨3, 8, none, none⟩) =
    Except.error WalkError.indexError :=
  C9_zero_param_method_index_error.1
    ⟨[Frame.funcFrame "beans" [], Frame.classFrame "Foo"], 1, [], [], []⟩
    "beans" "Foo" [] (PyStmt.assign [PyExpr.name "x"] ⟨3, 8, none, none⟩)
    [⟨"x", ""⟩] rfl (by decide) rfl

/-- **C10.** The descriptors of a single assignment statement are deduplicated
by `(receiver, attribute)` value: any successful resolution of an `ast.Assign`
yields a duplicate-free descriptor list, so `self.a = self.a.b = 1` in a
non-constructor method appends exactly one `method_vars` entry, whereas the
equal assignments `self.a = 1` / `self.a = 2` in two separate statements each
append their own located entry. -/
theorem C10_intra_statement_dedup :
    (∀ (targets : List PyExpr) (loc : Loc) (specs : List AssignSpec),
        resolve_assign (PyStmt.assign targets loc) = Except.ok specs → specs.Nodup) ∧
    walk modSameSpecOneStmt = Except.ok ⟨[], 0, [], [], [⟨"a", 3, 8, none, none⟩]⟩ ∧
    walk modSameSpecTwoStmts =
      Except.ok ⟨[], 0, [], [], [⟨"a", 3, 8, none, none⟩, ⟨"a", 4, 8, none, none⟩]⟩ := by
  refine ⟨?_, rfl, rfl⟩
  intro targets loc specs h
  simp only [resolve_assign] at h
  exact resolve_targets_nodup targets [] List.nodup_nil specs h

/-- **C10 witness.** The dedup applied to the concrete two-target statement
`self.a = self.a.b = 1`, whose resolution is the single descriptor
`(self, a)`. -/
theorem C10_intra_statement_dedup_witness :
    List.Nodup [(⟨"self", "a"⟩ : AssignSpec)] :=
  C10_intra_statement_dedup.1
    [PyExpr.attribute (PyExpr.name "self") "a",
     PyExpr.attribute (PyExpr.attribute (PyExpr.name "self") "a") "b"]
    ⟨3, 8, none, none⟩ [⟨"self", "a"⟩] rfl
